import Mathlib

/-!
Shallow embedding of the AthleteRise cricket analytics engine
(src/src/evaluator.py, src/src/biomechanics.py, src/src/pose_estimator.py,
src/main.py) and proofs about it.

Modelling conventions:
* Python floats whose arithmetic stays exact (sums, means, variances,
  comparisons against decimal thresholds) are modelled as rationals `ℚ`.
* The two transcendental steps of the geometry pipeline (`np.linalg.norm`'s
  square root and `math.degrees(math.acos(·))`) are taken as abstract
  function parameters `sqrtQ acosDeg : ℚ → ℚ`; theorems that need a fact
  about them (e.g. `sqrtQ 0 = 0`, which IEEE-754 sqrt satisfies exactly)
  take it as a hypothesis.
* NaN is modelled explicitly by the type `PyFloat`: numpy scalar division
  `0/0` produces NaN together with a `RuntimeWarning` (not an exception),
  `np.clip` and `math.acos` propagate NaN, so the degenerate-geometry path
  of `calculate_angle` is NaN-valued, never exception-raising.
* Python truthiness on an optional float (`if m.get(k):`) is true iff the
  value is present and nonzero; `truthyVal` captures the combined
  test-and-extract idiom used all over `evaluator.py` and `main.py`.
-/

namespace AthleteRise

/-- Python truthiness filter on an optional numeric value: `m.get(k)` used as
a condition is true iff the key is present, not `None`, and the number is
nonzero.  Returns the value when truthy, `none` otherwise. -/
def truthyVal (o : Option ℚ) : Option ℚ :=
  match o with
  | none => none
  | some v => if v = 0 then none else some v

/-- numpy `np.mean` on a list (exact rational arithmetic). -/
def npMean (l : List ℚ) : ℚ :=
  l.sum / l.length

/-- numpy `np.var` on a list: population variance, mean squared deviation
from the mean (ddof = 0, exact rational arithmetic). -/
def npVar (l : List ℚ) : ℚ :=
  (l.map (fun x => (x - npMean l) ^ 2)).sum / l.length

/-- Python floor division `a // b` on integers (rounds toward minus
infinity). -/
def pyFloorDiv (a b : ℤ) : ℤ :=
  Int.fdiv a b

/-- Python list slice `l[i:]` for an integer start index `i`: a negative
index counts from the end and is clamped at the front, an index past the
end yields the empty list. -/
def pySliceFrom {α : Type} (l : List α) (i : ℤ) : List α :=
  if i < 0 then l.drop ((l.length + i).toNat) else l.drop i.toNat

/-- Round-half-to-even on a rational, the rounding mode of Python `round`. -/
def roundHalfEven (q : ℚ) : ℤ :=
  let f := ⌊q⌋
  let r := q - f
  if r < 1 / 2 then f
  else if 1 / 2 < r then f + 1
  else if f % 2 = 0 then f else f + 1

/-- Python `round(x, 1)`: round to one decimal place, halves to even. -/
def pyRound1 (q : ℚ) : ℚ :=
  (roundHalfEven (q * 10) : ℚ) / 10

/-- `np.clip(x, -1.0, 1.0)` on a finite value. -/
def clampQ (x : ℚ) : ℚ :=
  min 1 (max (-1) x)

/-- Python `int(...)` truncation of a rational toward zero. -/
def truncQ (q : ℚ) : ℤ :=
  if 0 ≤ q then ⌊q⌋ else ⌈q⌉

/-! ### Data model -/

/-- One per-frame metric snapshot, `frame_metrics` assembled in
`main.py::analyze_video`: every biomechanical signal is independently
optional. -/
structure FrameMetrics where
  frame_number : ℕ
  elbow_angle : Option ℚ
  spine_lean_angle : Option ℚ
  head_knee_distance : Option ℚ
  foot_direction : Option ℚ
deriving DecidableEq

/-- The ordered per-frame record accumulated by the processing loop. -/
abbrev MetricsHistory := List FrameMetrics

/-- The five fixed category names keyed in the scores and weights dicts. -/
inductive Category where
  | footwork
  | head_position
  | swing_control
  | balance
  | follow_through
deriving DecidableEq, BEq

/-- Skill grades returned by `ShotEvaluator._determine_grade`. -/
inductive Grade where
  | Beginner
  | Intermediate
  | Advanced
deriving DecidableEq

/-- The configured thresholds consumed by the evaluator and the per-frame
feedback generator (`config['thresholds']`). -/
structure Thresholds where
  elbow_good_min : ℚ
  elbow_good_max : ℚ
  spine_good_min : ℚ
  spine_good_max : ℚ
  head_max_distance : ℚ
  foot_ideal_angle : ℚ

/-- The five category scores returned by
`ShotEvaluator.calculate_category_scores`. -/
structure CategoryScores where
  footwork : ℚ
  head_position : ℚ
  swing_control : ℚ
  balance : ℚ
  follow_through : ℚ
deriving DecidableEq

/-- Python `dict.get(k, default)` over an association list keyed by
category. -/
def dictGetD (d : List (Category × ℚ)) (k : Category) (dflt : ℚ) : ℚ :=
  match d.find? (fun p => p.1 == k) with
  | some p => p.2
  | none => dflt

/-! ### Sample extraction (truthiness filters in `evaluator.py`) -/

/-- `[m['elbow_angle'] for m in metrics_history if m.get('elbow_angle')]`. -/
def elbowSamples (history : MetricsHistory) : List ℚ :=
  history.filterMap (fun m => truthyVal m.elbow_angle)

/-- `[m['spine_lean'] for m in metrics_history if m.get('spine_lean')]`. -/
def spineSamples (history : MetricsHistory) : List ℚ :=
  history.filterMap (fun m => truthyVal m.spine_lean_angle)

/-- `[m['head_knee_distance'] for m in metrics_history if m.get('head_knee_distance')]`. -/
def headSamples (history : MetricsHistory) : List ℚ :=
  history.filterMap (fun m => truthyVal m.head_knee_distance)

/-- `[m.get('foot_direction') for m in metrics_history if m.get('foot_direction')]`. -/
def footSamples (history : MetricsHistory) : List ℚ :=
  history.filterMap (fun m => truthyVal m.foot_direction)

/-! ### Category scorers (`ShotEvaluator`) -/

/-- `ShotEvaluator._evaluate_footwork` (evaluator.py lines 41-64). -/
def _evaluate_footwork (th : Thresholds) (metrics_history : MetricsHistory) : ℚ :=
  if metrics_history.isEmpty then 5
  else
    let foot_angles := footSamples metrics_history
    if foot_angles.isEmpty then 6
    else
      let deviations := foot_angles.map (fun angle => |angle - th.foot_ideal_angle|)
      let avg_deviation := npMean deviations
      if avg_deviation ≤ 10 then 9
      else if avg_deviation ≤ 20 then 7
      else if avg_deviation ≤ 30 then 5
      else 3

/-- `ShotEvaluator._evaluate_head_position` (evaluator.py lines 66-81). -/
def _evaluate_head_position (th : Thresholds) (head_distances : List ℚ) : ℚ :=
  if head_distances.isEmpty then 5
  else
    let avg_distance := npMean head_distances
    let max_allowed := th.head_max_distance
    if avg_distance ≤ max_allowed * (1 / 2) then 9
    else if avg_distance ≤ max_allowed then 7
    else if avg_distance ≤ max_allowed * (3 / 2) then 5
    else 3

/-- `ShotEvaluator._evaluate_swing_control` (evaluator.py lines 83-103). -/
def _evaluate_swing_control (th : Thresholds) (elbow_angles : List ℚ) : ℚ :=
  if elbow_angles.isEmpty then 5
  else
    let in_range_count :=
      (elbow_angles.filter
        (fun angle => th.elbow_good_min ≤ angle ∧ angle ≤ th.elbow_good_max)).length
    let percentage_in_range : ℚ := in_range_count / elbow_angles.length
    if percentage_in_range ≥ 4 / 5 then 9
    else if percentage_in_range ≥ 3 / 5 then 7
    else if percentage_in_range ≥ 2 / 5 then 5
    else 3

/-- `ShotEvaluator._evaluate_balance` (evaluator.py lines 105-124). -/
def _evaluate_balance (th : Thresholds) (spine_leans : List ℚ) : ℚ :=
  if spine_leans.isEmpty then 5
  else
    let in_range_count :=
      (spine_leans.filter
        (fun lean => th.spine_good_min ≤ lean ∧ lean ≤ th.spine_good_max)).length
    let percentage_in_range : ℚ := in_range_count / spine_leans.length
    if percentage_in_range ≥ 7 / 10 then 9
    else if percentage_in_range ≥ 1 / 2 then 7
    else if percentage_in_range ≥ 3 / 10 then 5
    else 3

/-- `ShotEvaluator._evaluate_followthrough` (evaluator.py lines 126-149).
The window is the Python slice `metrics_history[-len(metrics_history)//5:]`
over raw frame positions. -/
def _evaluate_followthrough (metrics_history : MetricsHistory) : ℚ :=
  if metrics_history.length < 10 then 5
  else
    let final_frames :=
      pySliceFrom metrics_history (pyFloorDiv (-(metrics_history.length : ℤ)) 5)
    let final_elbow_angles := final_frames.filterMap (fun m => truthyVal m.elbow_angle)
    if final_elbow_angles.isEmpty then 5
    else
      let angle_variance := npVar final_elbow_angles
      if angle_variance ≤ 100 then 8
      else if angle_variance ≤ 300 then 6
      else 4

/-- `ShotEvaluator.calculate_category_scores` (evaluator.py lines 10-39):
extracts the truthy samples and dispatches to the five scorers. -/
def calculate_category_scores (th : Thresholds) (metrics_history : MetricsHistory) :
    CategoryScores :=
  { footwork := _evaluate_footwork th metrics_history
    head_position := _evaluate_head_position th (headSamples metrics_history)
    swing_control := _evaluate_swing_control th (elbowSamples metrics_history)
    balance := _evaluate_balance th (spineSamples metrics_history)
    follow_through := _evaluate_followthrough metrics_history }

/-- `ShotEvaluator.calculate_overall_score` (evaluator.py lines 247-253):
accumulate `score * scoring_weights.get(category, 0.2)` over the
category-scores dict, then `round(·, 1)`. -/
def calculate_overall_score (scoring_weights : List (Category × ℚ))
    (category_scores : List (Category × ℚ)) : ℚ :=
  pyRound1 (category_scores.foldl
    (fun overall p => overall + p.2 * dictGetD scoring_weights p.1 (1 / 5)) 0)

/-- `ShotEvaluator._determine_grade` (evaluator.py lines 270-277). -/
def _determine_grade (overall_score : ℚ) : Grade :=
  if overall_score ≥ 8 then Grade.Advanced
  else if overall_score ≥ 6 then Grade.Intermediate
  else Grade.Beginner

/-! ### Geometry (`biomechanics.py`, `pose_estimator.py`)

Integer pixel coordinates feed exact integer dot products; square roots and
the arccos-in-degrees step are abstract parameters `sqrtQ acosDeg`. -/

/-- A numpy/Python float value in the angle pipeline: either NaN or a finite
value.  The only division by zero the program can reach is numpy's scalar
`0/0` (the denominator is a product of norms and vanishes only when one of
the vectors is zero, which forces the integer dot product in the numerator
to zero as well); numpy yields NaN for it with a `RuntimeWarning`, raising
no exception. -/
inductive PyFloat where
  | nan
  | val (x : ℚ)
deriving DecidableEq

/-- numpy scalar division as reached by `calculate_angle`: a zero
denominator produces NaN (numpy `0/0`), otherwise exact division. -/
def pyDiv : PyFloat → PyFloat → PyFloat
  | PyFloat.val a, PyFloat.val b => if b = 0 then PyFloat.nan else PyFloat.val (a / b)
  | _, _ => PyFloat.nan

/-- `np.clip(x, -1.0, 1.0)`; NaN propagates through numpy's min/max. -/
def pyClip : PyFloat → PyFloat
  | PyFloat.nan => PyFloat.nan
  | PyFloat.val x => PyFloat.val (clampQ x)

/-- `math.degrees(math.acos(x))` for a clipped input: CPython's `math.acos`
returns NaN on NaN input (no `ValueError`), and `math.degrees` propagates
it; a finite input in [-1,1] maps through the abstract `acosDeg`. -/
def pyAcosDeg (acosDeg : ℚ → ℚ) : PyFloat → PyFloat
  | PyFloat.nan => PyFloat.nan
  | PyFloat.val x => PyFloat.val (acosDeg x)

/-- Integer dot product of pixel vectors. -/
def dotZ (v w : ℤ × ℤ) : ℤ :=
  v.1 * w.1 + v.2 * w.2

/-- Squared euclidean norm of a pixel vector (exact integer). -/
def normSq (v : ℤ × ℤ) : ℤ :=
  v.1 * v.1 + v.2 * v.2

/-- `BiomechanicsAnalyzer.calculate_angle` (biomechanics.py lines 9-24):
`cos = np.dot(v1, v2) / (norm(v1) * norm(v2))`, clip to [-1,1], arccos in
degrees.  The `try/except` wrapper returning 0.0 is dead code under these
semantics: numpy division by zero warns and yields NaN instead of raising,
and `acos`/`degrees` propagate the NaN to the caller. -/
def calculate_angle (sqrtQ acosDeg : ℚ → ℚ) (p1 p2 p3 : ℤ × ℤ) : PyFloat :=
  let v1 : ℤ × ℤ := (p1.1 - p2.1, p1.2 - p2.2)
  let v2 : ℤ × ℤ := (p3.1 - p2.1, p3.2 - p2.2)
  let num : ℚ := dotZ v1 v2
  let den : ℚ := sqrtQ (normSq v1) * sqrtQ (normSq v2)
  pyAcosDeg acosDeg (pyClip (pyDiv (PyFloat.val num) (PyFloat.val den)))

/-- One landmark produced by the pose provider: normalized position plus a
visibility confidence. -/
structure Landmark where
  x : ℚ
  y : ℚ
  z : ℚ
  visibility : ℚ
deriving DecidableEq

/-- The per-frame landmark dict `joint_idx -> landmark`. -/
abbrev Landmarks := List (ℕ × Landmark)

/-- Dict lookup `joint_idx in landmarks` / `landmarks[joint_idx]`. -/
def lookupLm (landmarks : Landmarks) (joint_idx : ℕ) : Option Landmark :=
  match landmarks.find? (fun p => p.1 == joint_idx) with
  | some p => some p.2
  | none => none

/-- `PoseEstimator.get_joint_coordinates` (pose_estimator.py lines 46-55):
pixel coordinates `(int(x*width), int(y*height))`, defined only when the
joint index is present and its visibility exceeds 0.5.  `frame_shape` is
`(height, width)`. -/
def get_joint_coordinates (landmarks : Landmarks) (joint_idx : ℕ)
    (frame_shape : ℕ × ℕ) : Option (ℤ × ℤ) :=
  match lookupLm landmarks joint_idx with
  | some landmark =>
      if landmark.visibility > 1 / 2 then
        some (truncQ (landmark.x * frame_shape.2), truncQ (landmark.y * frame_shape.1))
      else none
  | none => none

/-- `BiomechanicsAnalyzer.calculate_front_elbow_angle` (biomechanics.py
lines 26-36): angle(shoulder 11, elbow 13, wrist 15), or `None` if any of
the three joints is unresolved (`all` over coordinate tuples is exactly a
not-`None` check, since a 2-tuple is always truthy). -/
def calculate_front_elbow_angle (sqrtQ acosDeg : ℚ → ℚ) (landmarks : Landmarks)
    (frame_shape : ℕ × ℕ) : Option PyFloat :=
  match get_joint_coordinates landmarks 11 frame_shape,
        get_joint_coordinates landmarks 13 frame_shape,
        get_joint_coordinates landmarks 15 frame_shape with
  | some shoulder, some elbow, some wrist =>
      some (calculate_angle sqrtQ acosDeg shoulder elbow wrist)
  | _, _, _ => none

/-- `BiomechanicsAnalyzer.calculate_spine_lean` (biomechanics.py lines
38-54): angle of the hip(23)→shoulder(11) vector from the vertical
reference (0,-1); `None` if a joint is unresolved or the spine vector has
zero norm. -/
def calculate_spine_lean_angle (sqrtQ acosDeg : ℚ → ℚ) (landmarks : Landmarks)
    (frame_shape : ℕ × ℕ) : Option ℚ :=
  match get_joint_coordinates landmarks 23 frame_shape,
        get_joint_coordinates landmarks 11 frame_shape with
  | some hip, some shoulder =>
      let spine_vector : ℤ × ℤ := (shoulder.1 - hip.1, shoulder.2 - hip.2)
      if sqrtQ (normSq spine_vector) > 0 then
        let cos_angle : ℚ := (dotZ (0, -1) spine_vector : ℚ) / sqrtQ (normSq spine_vector)
        some (acosDeg (clampQ cos_angle))
      else none
  | _, _ => none

/-- `BiomechanicsAnalyzer.calculate_head_knee_alignment` (biomechanics.py
lines 56-65): absolute horizontal pixel distance between nose (0) and left
knee (25), or `None` if either joint is unresolved. -/
def calculate_head_knee_alignment (landmarks : Landmarks)
    (frame_shape : ℕ × ℕ) : Option ℤ :=
  match get_joint_coordinates landmarks 0 frame_shape,
        get_joint_coordinates landmarks 25 frame_shape with
  | some nose, some knee => some |nose.1 - knee.1|
  | _, _ => none

/-- `BiomechanicsAnalyzer.calculate_foot_direction` (biomechanics.py lines
67-81): angle of the ankle(27)→foot-index(31) vector from the horizontal
reference (1,0); `None` if a joint is unresolved or the foot vector has
zero norm. -/
def calculate_foot_direction (sqrtQ acosDeg : ℚ → ℚ) (landmarks : Landmarks)
    (frame_shape : ℕ × ℕ) : Option ℚ :=
  match get_joint_coordinates landmarks 27 frame_shape,
        get_joint_coordinates landmarks 31 frame_shape with
  | some ankle, some foot =>
      let foot_vector : ℤ × ℤ := (foot.1 - ankle.1, foot.2 - ankle.2)
      if sqrtQ (normSq foot_vector) > 0 then
        let cos_angle : ℚ := (dotZ (1, 0) foot_vector : ℚ) / sqrtQ (normSq foot_vector)
        some (acosDeg (clampQ cos_angle))
      else none
  | _, _ => none

/-! ### Per-frame assembly and feedback (`main.py`, `biomechanics.py`) -/

/-- Assembly of `frame_metrics` in `main.py::analyze_video` (lines 87-113):
each field starts as `None` and is assigned only behind a truthiness test
(`if elbow_angle: frame_metrics['elbow_angle'] = elbow_angle`), so a metric
that computed to exactly 0.0 stays `None`. -/
def buildFrameMetrics (frame_number : ℕ)
    (elbow_angle spine_lean_v head_knee_distance foot_direction : Option ℚ) :
    FrameMetrics :=
  { frame_number := frame_number
    elbow_angle := truthyVal elbow_angle
    spine_lean_angle := truthyVal spine_lean_v
    head_knee_distance := truthyVal head_knee_distance
    foot_direction := truthyVal foot_direction }

/-- The pass/fail verdict carried by one per-frame feedback string. -/
inductive Verdict where
  | good
  | bad
deriving DecidableEq

/-- The per-frame feedback dict built by
`BiomechanicsAnalyzer.evaluate_metrics`: at most one entry each for elbow,
spine and head. -/
structure FrameFeedback where
  elbow : Option Verdict
  spine : Option Verdict
  head : Option Verdict
deriving DecidableEq

/-- `BiomechanicsAnalyzer.evaluate_metrics` (biomechanics.py lines 83-111):
each metric is evaluated only when truthy (`if metrics.get('elbow_angle'):`),
so a metric that is `None` — or exactly 0.0 — produces no feedback entry. -/
def evaluate_metrics (th : Thresholds) (metrics : FrameMetrics) : FrameFeedback :=
  { elbow :=
      match truthyVal metrics.elbow_angle with
      | some angle =>
          some (if th.elbow_good_min ≤ angle ∧ angle ≤ th.elbow_good_max then
            Verdict.good else Verdict.bad)
      | none => none
    spine :=
      match truthyVal metrics.spine_lean_angle with
      | some lean =>
          some (if th.spine_good_min ≤ lean ∧ lean ≤ th.spine_good_max then
            Verdict.good else Verdict.bad)
      | none => none
    head :=
      match truthyVal metrics.head_knee_distance with
      | some distance =>
          some (if distance ≤ th.head_max_distance then Verdict.good else Verdict.bad)
      | none => none }

/-! ### Spec-side definitions and concrete data for the claims -/

/-- Modelled from the claim's words (spec section 4.4, follow-through): the
window is the trailing `floor(n/5)` frames of the history, counted over raw
frame positions; the sample collection, empty default and variance bands
are those of the spec. -/
def followthroughFloorSpec (metrics_history : MetricsHistory) : ℚ :=
  if metrics_history.length < 10 then 5
  else
    let window :=
      metrics_history.drop (metrics_history.length - metrics_history.length / 5)
    let samples := window.filterMap (fun m => truthyVal m.elbow_angle)
    if samples.isEmpty then 5
    else
      let angle_variance := npVar samples
      if angle_variance ≤ 100 then 8
      else if angle_variance ≤ 300 then 6
      else 4

/-- Modelled from the amended claim: the window is the trailing
`ceil(n/5)` frames (what the Python slice `[-n//5:]` actually takes),
counted over raw frame positions. -/
def followthroughCeilSpec (metrics_history : MetricsHistory) : ℚ :=
  if metrics_history.length < 10 then 5
  else
    let k := (metrics_history.length + 4) / 5
    let window := metrics_history.drop (metrics_history.length - k)
    let samples := window.filterMap (fun m => truthyVal m.elbow_angle)
    if samples.isEmpty then 5
    else
      let angle_variance := npVar samples
      if angle_variance ≤ 100 then 8
      else if angle_variance ≤ 300 then 6
      else 4

/-- Mean absolute deviation of the collected foot-direction samples from
the configured ideal angle (the quantity the footwork bands compare). -/
def madDeviation (th : Thresholds) (metrics_history : MetricsHistory) : ℚ :=
  npMean ((footSamples metrics_history).map (fun angle => |angle - th.foot_ideal_angle|))

/-- Fraction of samples inside the configured inclusive range (the quantity
the swing-control and balance bands compare). -/
def fractionInRange (lo hi : ℚ) (samples : List ℚ) : ℚ :=
  ((samples.filter (fun a => lo ≤ a ∧ a ≤ hi)).length : ℚ) / samples.length

/-- A placeholder frame with no detected metrics (pose detection failed). -/
def noneFrame : FrameMetrics :=
  { frame_number := 0
    elbow_angle := none
    spine_lean_angle := none
    head_knee_distance := none
    foot_direction := none }

/-- A 23-frame history whose only elbow sample sits at raw position 18,
i.e. inside the trailing five frames but outside the trailing four. -/
def ex23 : MetricsHistory :=
  List.replicate 18 noneFrame ++
    [{ frame_number := 18
       elbow_angle := some 50
       spine_lean_angle := none
       head_knee_distance := none
       foot_direction := none }] ++
    List.replicate 4 noneFrame

/-- A 23-frame history of placeholder frames only. -/
def ex23b : MetricsHistory :=
  List.replicate 23 noneFrame

/-- A 9-frame history with plenty of metric content. -/
def ex9 : MetricsHistory :=
  List.replicate 9
    { frame_number := 0
      elbow_angle := some 1000
      spine_lean_angle := some 45
      head_knee_distance := some 3
      foot_direction := some 170 }

/-- A concrete threshold configuration: elbow good range [120,150], spine
good range [10,30], head max distance 50, foot ideal angle 10. -/
def thTest : Thresholds :=
  { elbow_good_min := 120
    elbow_good_max := 150
    spine_good_min := 10
    spine_good_max := 30
    head_max_distance := 50
    foot_ideal_angle := 10 }

/-- A landmark dict whose only entry is joint 11 at visibility exactly 0.5
(the boundary the `> 0.5` gate rejects). -/
def exLms : Landmarks :=
  [(11, { x := 1 / 2, y := 1 / 2, z := 0, visibility := 1 / 2 })]

/-- A trivial stand-in for the abstract `sqrtQ`/`acosDeg` parameters, used
to instantiate universally quantified theorems at a concrete input. -/
def zeroFun : ℚ → ℚ := fun _ => 0

/-- The joint `joint_idx` is unresolved for this landmark dict: it is
either absent or its visibility is at most 0.5 (so that the
`visibility > 0.5` gate of `get_joint_coordinates` fails). -/
def unresolvedJoint (landmarks : Landmarks) (joint_idx : ℕ) : Bool :=
  match lookupLm landmarks joint_idx with
  | some lm => decide (lm.visibility ≤ 1 / 2)
  | none => true

/-! ### Helper lemmas -/

/-- The truthiness filter never yields the value zero. -/
theorem truthyVal_ne_some_zero (o : Option ℚ) : truthyVal o ≠ some 0 := by
  cases o with
  | none => simp [truthyVal]
  | some v =>
    simp only [truthyVal]
    split_ifs with hv <;> simp [hv]

/-- The Python slice `l[-len(l)//5:]` is the trailing `ceil(n/5)` elements
whenever the list has at least 10 elements. -/
theorem pySliceFrom_trailing {α : Type} (l : List α) (hlen : 10 ≤ l.length) :
    pySliceFrom l (pyFloorDiv (-(l.length : ℤ)) 5) =
      l.drop (l.length - (l.length + 4) / 5) := by
  unfold pySliceFrom pyFloorDiv
  rw [Int.fdiv_eq_ediv _ (by norm_num)]
  have hneg : -(l.length : ℤ) / 5 < 0 := by omega
  rw [if_pos hneg]
  congr 1
  omega

/-- Accumulating `overall += score * weight` over the category dict is the
sum of the per-category products. -/
theorem foldl_weighted_sum (w s : List (Category × ℚ)) (init : ℚ) :
    s.foldl (fun overall p => overall + p.2 * dictGetD w p.1 (1 / 5)) init =
      init + (s.map (fun p => p.2 * dictGetD w p.1 (1 / 5))).sum := by
  induction s generalizing init with
  | nil => simp
  | cons x xs ih => rw [List.foldl_cons, ih, List.map_cons, List.sum_cons]; ring

/-- The footwork score is one of the band constants, all within [3, 9]. -/
theorem _evaluate_footwork_range (th : Thresholds) (h : MetricsHistory) :
    3 ≤ _evaluate_footwork th h ∧ _evaluate_footwork th h ≤ 9 := by
  simp only [_evaluate_footwork]
  split_ifs <;> norm_num

/-- The head-position score is one of the band constants, all within [3, 9]. -/
theorem _evaluate_head_position_range (th : Thresholds) (l : List ℚ) :
    3 ≤ _evaluate_head_position th l ∧ _evaluate_head_position th l ≤ 9 := by
  simp only [_evaluate_head_position]
  split_ifs <;> norm_num

/-- The swing-control score is one of the band constants, all within [3, 9]. -/
theorem _evaluate_swing_control_range (th : Thresholds) (l : List ℚ) :
    3 ≤ _evaluate_swing_control th l ∧ _evaluate_swing_control th l ≤ 9 := by
  simp only [_evaluate_swing_control]
  split_ifs <;> norm_num

/-- The balance score is one of the band constants, all within [3, 9]. -/
theorem _evaluate_balance_range (th : Thresholds) (l : List ℚ) :
    3 ≤ _evaluate_balance th l ∧ _evaluate_balance th l ≤ 9 := by
  simp only [_evaluate_balance]
  split_ifs <;> norm_num

/-- The follow-through score is one of the band constants, all within [3, 9]. -/
theorem _evaluate_followthrough_range (h : MetricsHistory) :
    3 ≤ _evaluate_followthrough h ∧ _evaluate_followthrough h ≤ 9 := by
  simp only [_evaluate_followthrough]
  split_ifs <;> norm_num

/-! ### Claim theorems -/

/-- Claim C1 (amended): the follow-through score of a history of at least
10 frames is computed over the trailing `ceil(n/5)` frames — what the
Python slice `metrics_history[-len(metrics_history)//5:]` takes — counted
over raw frame positions, with all-None placeholder frames occupying
window slots; a history of 23 frames uses exactly the trailing 5 frames. -/
theorem followthrough_uses_ceil_window (metrics_history : MetricsHistory) :
    _evaluate_followthrough metrics_history = followthroughCeilSpec metrics_history := by
  unfold _evaluate_followthrough followthroughCeilSpec
  by_cases hlen : metrics_history.length < 10
  · rw [if_pos hlen, if_pos hlen]
  · rw [if_neg hlen, if_neg hlen, pySliceFrom_trailing _ (by omega)]

/-- Claim C1 counterexample: on a 23-frame history whose only elbow sample
sits at raw position 18 (inside the trailing five frames, outside the
trailing four), the code scores 8.0, while the claimed trailing-`floor(n/5)`
window contains no elbow sample at all and the claimed rules would give
5.0. -/
theorem followthrough_floor_window_refuted :
    ex23.length = 23 ∧
    (ex23.drop 19).filterMap (fun m => truthyVal m.elbow_angle) = [] ∧
    _evaluate_followthrough ex23 = 8 ∧
    followthroughFloorSpec ex23 = 5 := by
  have hlen : ex23.length = 23 := by decide
  have hdrop19 : (ex23.drop 19).filterMap (fun m => truthyVal m.elbow_angle) = [] := by
    decide
  have hsamp : (ex23.drop 18).filterMap (fun m => truthyVal m.elbow_angle) = [50] := by
    decide
  refine ⟨hlen, hdrop19, ?_, ?_⟩
  · simp only [_evaluate_followthrough]
    rw [if_neg (by rw [hlen]; norm_num)]
    rw [pySliceFrom_trailing ex23 (by rw [hlen]; norm_num), hlen]
    have h18 : (23 : ℕ) - (23 + 4) / 5 = 18 := by norm_num
    rw [h18, hsamp]
    rw [if_neg (by decide)]
    rw [if_pos (by norm_num [npVar, npMean])]
  · simp only [followthroughFloorSpec]
    rw [if_neg (by rw [hlen]; norm_num), hlen]
    have h19 : (23 : ℕ) - 23 / 5 = 19 := by norm_num
    rw [h19, hdrop19]
    simp

/-- Claim C2: a history of fewer than 10 frames scores 5.0 for
follow-through, regardless of the frames' contents. -/
theorem followthrough_short_history (metrics_history : MetricsHistory)
    (hlen : metrics_history.length < 10) :
    _evaluate_followthrough metrics_history = 5 := by
  unfold _evaluate_followthrough
  rw [if_pos hlen]

/-- Witness for C2: a 9-frame history full of metric content scores 5.0. -/
theorem followthrough_short_history_witness :
    ex9.length < 10 ∧ _evaluate_followthrough ex9 = 5 :=
  ⟨by decide, followthrough_short_history ex9 (by decide)⟩

/-- Claim C8: the grade is Advanced iff the overall score is at least 8.0,
Intermediate iff it is in [6.0, 8.0), and Beginner iff it is below 6.0;
exact boundaries: 8.0 is Advanced, 7.99 Intermediate, 6.0 Intermediate,
5.99 Beginner. -/
theorem grade_spec :
    (∀ s : ℚ,
      (_determine_grade s = Grade.Advanced ↔ 8 ≤ s) ∧
      (_determine_grade s = Grade.Intermediate ↔ 6 ≤ s ∧ s < 8) ∧
      (_determine_grade s = Grade.Beginner ↔ s < 6)) ∧
    _determine_grade 8 = Grade.Advanced ∧
    _determine_grade (799 / 100) = Grade.Intermediate ∧
    _determine_grade 6 = Grade.Intermediate ∧
    _determine_grade (599 / 100) = Grade.Beginner := by
  refine ⟨fun s => ?_, by norm_num [_determine_grade], by norm_num [_determine_grade],
    by norm_num [_determine_grade], by norm_num [_determine_grade]⟩
  unfold _determine_grade
  split_ifs with h1 h2
  · exact ⟨iff_of_true rfl h1,
      iff_of_false (by simp) (fun hc => by linarith [hc.2]),
      iff_of_false (by simp) (by intro hc; linarith)⟩
  · exact ⟨iff_of_false (by simp) h1,
      iff_of_true rfl ⟨h2, not_le.mp h1⟩,
      iff_of_false (by simp) (not_lt.mpr h2)⟩
  · exact ⟨iff_of_false (by simp) h1,
      iff_of_false (by simp) (fun hc => h2 hc.1),
      iff_of_true rfl (not_le.mp h2)⟩

/-- Claim C3: the footwork score is 5.0 for an empty history, 6.0 for a
non-empty history with zero collected foot_direction samples (a distinct
default), and otherwise the mean absolute deviation of the samples from
the configured ideal angle banded as { ≤10 ↦ 9.0, ≤20 ↦ 7.0, ≤30 ↦ 5.0,
else ↦ 3.0 }. -/
theorem footwork_score_spec :
    (∀ th : Thresholds, _evaluate_footwork th [] = 5) ∧
    (∀ (th : Thresholds) (h : MetricsHistory), h ≠ [] → footSamples h = [] →
      _evaluate_footwork th h = 6) ∧
    (∀ (th : Thresholds) (h : MetricsHistory), footSamples h ≠ [] →
      (madDeviation th h ≤ 10 → _evaluate_footwork th h = 9) ∧
      (10 < madDeviation th h → madDeviation th h ≤ 20 → _evaluate_footwork th h = 7) ∧
      (20 < madDeviation th h → madDeviation th h ≤ 30 → _evaluate_footwork th h = 5) ∧
      (30 < madDeviation th h → _evaluate_footwork th h = 3)) := by
  refine ⟨fun th => rfl, fun th h hne hs => ?_, fun th h hs => ?_⟩
  · have hemp : h.isEmpty = false := by
      cases h with
      | nil => exact absurd rfl hne
      | cons a l => rfl
    simp [_evaluate_footwork, hemp, hs]
  · have hemp : h.isEmpty = false := by
      cases h with
      | nil => exact absurd rfl hs
      | cons a l => rfl
    have hemps : (footSamples h).isEmpty = false := by
      cases hfe : footSamples h with
      | nil => exact absurd hfe hs
      | cons a l => rfl
    simp only [_evaluate_footwork, madDeviation, hemp, hemps, Bool.false_eq_true, if_false]
    split_ifs with hb1 hb2 hb3 <;>
      refine ⟨fun hc => ?_, fun hc hc2 => ?_, fun hc hc2 => ?_, fun hc => ?_⟩ <;>
        first | rfl | linarith

/-- Witness for C3: the three regimes at concrete inputs: empty history
scores 5.0, a one-placeholder-frame history scores 6.0, and a history with
one foot_direction sample at 15 degrees against ideal angle 10 (mean
absolute deviation 5) scores 9.0. -/
theorem footwork_score_spec_witness :
    _evaluate_footwork thTest [] = 5 ∧
    _evaluate_footwork thTest [noneFrame] = 6 ∧
    _evaluate_footwork thTest [⟨0, none, none, none, some 15⟩] = 9 := by
  refine ⟨footwork_score_spec.1 thTest,
    footwork_score_spec.2.1 thTest [noneFrame] (by decide) (by decide),
    (footwork_score_spec.2.2 thTest [⟨0, none, none, none, some 15⟩] (by decide)).1 ?_⟩
  have hsamp : footSamples [(⟨0, none, none, none, some 15⟩ : FrameMetrics)] = [15] := by
    decide
  rw [madDeviation, hsamp]
  norm_num [npMean, thTest]

/-- Claim C6: the swing-control score is 5.0 for an empty elbow sample
set, and otherwise the fraction of samples inside the configured inclusive
[good_min, good_max] range banded as { ≥0.8 ↦ 9.0, ≥0.6 ↦ 7.0, ≥0.4 ↦ 5.0,
else ↦ 3.0 }; samples [130,135,140,128,132] against range [120,150] score
9.0. -/
theorem swing_control_spec :
    (∀ th : Thresholds, _evaluate_swing_control th [] = 5) ∧
    (∀ (th : Thresholds) (l : List ℚ), l ≠ [] →
      (4 / 5 ≤ fractionInRange th.elbow_good_min th.elbow_good_max l →
        _evaluate_swing_control th l = 9) ∧
      (3 / 5 ≤ fractionInRange th.elbow_good_min th.elbow_good_max l →
        fractionInRange th.elbow_good_min th.elbow_good_max l < 4 / 5 →
        _evaluate_swing_control th l = 7) ∧
      (2 / 5 ≤ fractionInRange th.elbow_good_min th.elbow_good_max l →
        fractionInRange th.elbow_good_min th.elbow_good_max l < 3 / 5 →
        _evaluate_swing_control th l = 5) ∧
      (fractionInRange th.elbow_good_min th.elbow_good_max l < 2 / 5 →
        _evaluate_swing_control th l = 3)) ∧
    _evaluate_swing_control thTest [130, 135, 140, 128, 132] = 9 := by
  refine ⟨fun th => rfl, fun th l hne => ?_, ?_⟩
  · have hemp : l.isEmpty = false := by
      cases l with
      | nil => exact absurd rfl hne
      | cons a t => rfl
    simp only [_evaluate_swing_control, fractionInRange, hemp, Bool.false_eq_true, if_false]
    split_ifs with hb1 hb2 hb3 <;>
      refine ⟨fun hc => ?_, fun hc hc2 => ?_, fun hc hc2 => ?_, fun hc => ?_⟩ <;>
        first | rfl | linarith
  · have hfil : (([130, 135, 140, 128, 132] : List ℚ).filter
        (fun angle => thTest.elbow_good_min ≤ angle ∧ angle ≤ thTest.elbow_good_max)).length
        = 5 := by decide
    simp only [_evaluate_swing_control]
    rw [if_neg (by decide), hfil]
    rw [if_pos (by norm_num)]

/-- Witness for C6: a sample list with fraction-in-range exactly 1/2 (one
of two samples inside [120,150]) scores 5.0 through the banded branch. -/
theorem swing_control_spec_witness :
    _evaluate_swing_control thTest [130, 200] = 5 := by
  have hfrac : fractionInRange thTest.elbow_good_min thTest.elbow_good_max [130, 200]
      = 1 / 2 := by
    have hfil : (([130, 200] : List ℚ).filter
        (fun a => thTest.elbow_good_min ≤ a ∧ a ≤ thTest.elbow_good_max)).length = 1 := by
      decide
    rw [fractionInRange, hfil]
    norm_num
  exact (swing_control_spec.2.1 thTest [130, 200] (by decide)).2.2.1
    (by rw [hfrac]; norm_num) (by rw [hfrac]; norm_num)

/-- Claim C7: the overall score is the sum over the category-scores dict of
score times the configured weight (defaulting to 0.2 for categories absent
from the weight configuration), rounded to one decimal place, with no
renormalization; five categories at 6.0 with weights 0.2 give 6.0. -/
theorem overall_score_spec :
    (∀ w s : List (Category × ℚ),
      calculate_overall_score w s =
        pyRound1 ((s.map (fun p => p.2 * dictGetD w p.1 (1 / 5))).sum)) ∧
    calculate_overall_score
      [(Category.footwork, 1 / 5), (Category.head_position, 1 / 5),
       (Category.swing_control, 1 / 5), (Category.balance, 1 / 5),
       (Category.follow_through, 1 / 5)]
      [(Category.footwork, 6), (Category.head_position, 6),
       (Category.swing_control, 6), (Category.balance, 6),
       (Category.follow_through, 6)] = 6 := by
  have hmain : ∀ w s : List (Category × ℚ),
      calculate_overall_score w s =
        pyRound1 ((s.map (fun p => p.2 * dictGetD w p.1 (1 / 5))).sum) := by
    intro w s
    unfold calculate_overall_score
    rw [foldl_weighted_sum, zero_add]
  refine ⟨hmain, ?_⟩
  rw [hmain]
  have hmap : (([(Category.footwork, (6:ℚ)), (Category.head_position, 6),
       (Category.swing_control, 6), (Category.balance, 6),
       (Category.follow_through, 6)]).map
        (fun p => p.2 * dictGetD
          [(Category.footwork, 1 / 5), (Category.head_position, 1 / 5),
           (Category.swing_control, 1 / 5), (Category.balance, 1 / 5),
           (Category.follow_through, 1 / 5)] p.1 (1 / 5))) =
      [(6:ℚ) * (1/5), 6 * (1/5), 6 * (1/5), 6 * (1/5), 6 * (1/5)] := rfl
  rw [hmap]
  have hsum : ([(6:ℚ) * (1/5), 6 * (1/5), 6 * (1/5), 6 * (1/5), 6 * (1/5)]).sum = 6 := by
    norm_num
  rw [hsum]
  unfold pyRound1 roundHalfEven
  norm_num

/-- Claim C9: for every history and every threshold configuration, each of
the five category scores lies in [3.0, 9.0]. -/
theorem category_scores_in_range (th : Thresholds) (metrics_history : MetricsHistory) :
    (3 ≤ (calculate_category_scores th metrics_history).footwork ∧
      (calculate_category_scores th metrics_history).footwork ≤ 9) ∧
    (3 ≤ (calculate_category_scores th metrics_history).head_position ∧
      (calculate_category_scores th metrics_history).head_position ≤ 9) ∧
    (3 ≤ (calculate_category_scores th metrics_history).swing_control ∧
      (calculate_category_scores th metrics_history).swing_control ≤ 9) ∧
    (3 ≤ (calculate_category_scores th metrics_history).balance ∧
      (calculate_category_scores th metrics_history).balance ≤ 9) ∧
    (3 ≤ (calculate_category_scores th metrics_history).follow_through ∧
      (calculate_category_scores th metrics_history).follow_through ≤ 9) :=
  ⟨_evaluate_footwork_range th metrics_history,
   _evaluate_head_position_range th (headSamples metrics_history),
   _evaluate_swing_control_range th (elbowSamples metrics_history),
   _evaluate_balance_range th (spineSamples metrics_history),
   _evaluate_followthrough_range metrics_history⟩

/-- Claim C4 (code behaviour at the failing input): on degenerate geometry
— a coincident point pair making one of the two vectors zero-length —
`calculate_angle` returns NaN, not the claimed sentinel 0.0: numpy
evaluates the scalar `0/0` to NaN with a RuntimeWarning instead of raising,
so the bare `except` branch that returns 0.0 never runs, and the NaN
propagates through `np.clip` and `math.acos` to the caller. -/
theorem calculate_angle_degenerate_nan (sqrtQ acosDeg : ℚ → ℚ)
    (hsqrt0 : sqrtQ 0 = 0) (p1 p2 p3 : ℤ × ℤ) (hdeg : p1 = p2 ∨ p3 = p2) :
    calculate_angle sqrtQ acosDeg p1 p2 p3 = PyFloat.nan ∧
    calculate_angle sqrtQ acosDeg p1 p2 p3 ≠ PyFloat.val 0 := by
  have hnan : calculate_angle sqrtQ acosDeg p1 p2 p3 = PyFloat.nan := by
    rcases hdeg with rfl | rfl <;>
      simp [calculate_angle, dotZ, normSq, pyDiv, pyClip, pyAcosDeg, hsqrt0]
  refine ⟨hnan, ?_⟩
  rw [hnan]
  intro hc
  exact PyFloat.noConfusion hc

/-- Witness for C4: the concrete call `calculate_angle((5,5), (5,5), (9,9))`
— a coincident point pair — yields NaN and in particular not 0.0. -/
theorem calculate_angle_degenerate_nan_witness :
    calculate_angle zeroFun zeroFun (5, 5) (5, 5) (9, 9) = PyFloat.nan ∧
    calculate_angle zeroFun zeroFun (5, 5) (5, 5) (9, 9) ≠ PyFloat.val 0 :=
  calculate_angle_degenerate_nan zeroFun zeroFun rfl (5, 5) (5, 5) (9, 9) (Or.inl rfl)

/-- Claim C5: a joint whose landmark visibility is at most 0.5, or whose
index is absent from the landmark dict, resolves to no pixel coordinate,
and each of the four metric extractors that requires that joint returns
None for the frame. -/
theorem low_visibility_joint_blocks_metrics (sqrtQ acosDeg : ℚ → ℚ)
    (lms : Landmarks) (shape : ℕ × ℕ) (i : ℕ)
    (hunres : unresolvedJoint lms i = true) :
    get_joint_coordinates lms i shape = none ∧
    (i = 11 ∨ i = 13 ∨ i = 15 →
      calculate_front_elbow_angle sqrtQ acosDeg lms shape = none) ∧
    (i = 23 ∨ i = 11 →
      calculate_spine_lean_angle sqrtQ acosDeg lms shape = none) ∧
    (i = 0 ∨ i = 25 → calculate_head_knee_alignment lms shape = none) ∧
    (i = 27 ∨ i = 31 →
      calculate_foot_direction sqrtQ acosDeg lms shape = none) := by
  have hnone : get_joint_coordinates lms i shape = none := by
    unfold unresolvedJoint at hunres
    unfold get_joint_coordinates
    cases hlk : lookupLm lms i with
    | none => simp [hlk]
    | some lm =>
      rw [hlk] at hunres
      simp at hunres
      simp [hlk, not_lt.mpr hunres]
  refine ⟨hnone, ?_, ?_, ?_, ?_⟩
  · rintro (rfl | rfl | rfl) <;>
      unfold calculate_front_elbow_angle <;>
      rcases hA : get_joint_coordinates lms 11 shape with _ | cA <;>
      rcases hB : get_joint_coordinates lms 13 shape with _ | cB <;>
      rcases hC : get_joint_coordinates lms 15 shape with _ | cC <;>
        simp_all
  · rintro (rfl | rfl) <;>
      unfold calculate_spine_lean_angle <;>
      rcases hA : get_joint_coordinates lms 23 shape with _ | cA <;>
      rcases hB : get_joint_coordinates lms 11 shape with _ | cB <;>
        simp_all
  · rintro (rfl | rfl) <;>
      unfold calculate_head_knee_alignment <;>
      rcases hA : get_joint_coordinates lms 0 shape with _ | cA <;>
      rcases hB : get_joint_coordinates lms 25 shape with _ | cB <;>
        simp_all
  · rintro (rfl | rfl) <;>
      unfold calculate_foot_direction <;>
      rcases hA : get_joint_coordinates lms 27 shape with _ | cA <;>
      rcases hB : get_joint_coordinates lms 31 shape with _ | cB <;>
        simp_all

/-- Witness for C5: a landmark dict whose only entry is joint 11 at
visibility exactly 0.5: the joint is unresolved and both extractors that
require joint 11 return None. -/
theorem low_visibility_joint_blocks_metrics_witness :
    unresolvedJoint exLms 11 = true ∧
    get_joint_coordinates exLms 11 (480, 640) = none ∧
    calculate_front_elbow_angle zeroFun zeroFun exLms (480, 640) = none ∧
    calculate_spine_lean_angle zeroFun zeroFun exLms (480, 640) = none := by
  have hunres : unresolvedJoint exLms 11 = true := by
    simp [unresolvedJoint, lookupLm, exLms, List.find?]
  have h := low_visibility_joint_blocks_metrics zeroFun zeroFun exLms (480, 640) 11 hunres
  exact ⟨hunres, h.1, h.2.1 (Or.inl rfl), h.2.2.1 (Or.inr rfl)⟩

/-- Claim C10: a metric that computes to exactly 0.0 is treated as absent
throughout the pipeline: the truthiness guard in frame assembly leaves the
FrameMetrics field None, the per-frame feedback generator emits no entry
for it, and the value 0 never enters any category-score sample set. -/
theorem zero_metric_treated_as_absent :
    (∀ fn s hd f, (buildFrameMetrics fn (some 0) s hd f).elbow_angle = none) ∧
    (∀ fn e hd f, (buildFrameMetrics fn e (some 0) hd f).spine_lean_angle = none) ∧
    (∀ fn e s f, (buildFrameMetrics fn e s (some 0) f).head_knee_distance = none) ∧
    (∀ fn e s hd, (buildFrameMetrics fn e s hd (some 0)).foot_direction = none) ∧
    (∀ (th : Thresholds) (m : FrameMetrics), m.elbow_angle = some 0 →
      (evaluate_metrics th m).elbow = none) ∧
    (∀ (th : Thresholds) (m : FrameMetrics), m.spine_lean_angle = some 0 →
      (evaluate_metrics th m).spine = none) ∧
    (∀ (th : Thresholds) (m : FrameMetrics), m.head_knee_distance = some 0 →
      (evaluate_metrics th m).head = none) ∧
    (∀ metrics_history : MetricsHistory,
      (0 : ℚ) ∉ elbowSamples metrics_history ∧
      (0 : ℚ) ∉ spineSamples metrics_history ∧
      (0 : ℚ) ∉ headSamples metrics_history ∧
      (0 : ℚ) ∉ footSamples metrics_history) := by
  refine ⟨fun fn s hd f => ?_, fun fn e hd f => ?_, fun fn e s f => ?_,
    fun fn e s hd => ?_, fun th m hm => ?_, fun th m hm => ?_, fun th m hm => ?_,
    fun hist => ⟨?_, ?_, ?_, ?_⟩⟩
  · simp [buildFrameMetrics, truthyVal]
  · simp [buildFrameMetrics, truthyVal]
  · simp [buildFrameMetrics, truthyVal]
  · simp [buildFrameMetrics, truthyVal]
  · simp [evaluate_metrics, hm, truthyVal]
  · simp [evaluate_metrics, hm, truthyVal]
  · simp [evaluate_metrics, hm, truthyVal]
  · intro hmem
    rw [elbowSamples, List.mem_filterMap] at hmem
    obtain ⟨m, _, hv⟩ := hmem
    exact truthyVal_ne_some_zero _ hv
  · intro hmem
    rw [spineSamples, List.mem_filterMap] at hmem
    obtain ⟨m, _, hv⟩ := hmem
    exact truthyVal_ne_some_zero _ hv
  · intro hmem
    rw [headSamples, List.mem_filterMap] at hmem
    obtain ⟨m, _, hv⟩ := hmem
    exact truthyVal_ne_some_zero _ hv
  · intro hmem
    rw [footSamples, List.mem_filterMap] at hmem
    obtain ⟨m, _, hv⟩ := hmem
    exact truthyVal_ne_some_zero _ hv

/-- Witness for C10 at concrete inputs: an elbow angle of exactly 0.0 is
dropped in frame assembly, a frame carrying elbow 0.0 gets no elbow
feedback entry, and 0 is absent from the elbow sample set of a concrete
history. -/
theorem zero_metric_treated_as_absent_witness :
    (buildFrameMetrics 3 (some 0) (some 45) none (some 0)).elbow_angle = none ∧
    (evaluate_metrics thTest ⟨0, some 0, none, none, none⟩).elbow = none ∧
    (0 : ℚ) ∉ elbowSamples ex23 := by
  obtain ⟨hb, _, _, _, hfe, _, _, hsam⟩ := zero_metric_treated_as_absent
  exact ⟨hb 3 (some 45) none (some 0),
    hfe thTest ⟨0, some 0, none, none, none⟩ rfl, (hsam ex23).1⟩

end AthleteRise
